import Mathlib

/-
Shallow embedding of src/app3.py, a single-file Streamlit dashboard
("Microbial Water Quality Prediction System").

The program keeps one piece of mutable session state, the string
`st.session_state.current_function`.  On every rerun of the script,
`main` (src/app3.py lines 43-112):
  1. runs six sidebar-button handlers in order (lines 58-74); a pressed
     button assigns its panel name to `current_function`;
  2. initializes `current_function` to "Temporal Analysis" if the key is
     still absent (lines 77-78);
  3. dispatches on the current value through an if/elif chain
     (lines 84-100), invoking exactly one of six renderer functions.

Renderers build chart data either from literal constants or from
unseeded numpy random draws.  Randomness is modelled by explicit streams
`Nat → ℚ`: a stream `u` of uniform samples in [0,1) (numpy's
`uniform(low, high)` returns `low + (high-low)*sample`), and a stream
`z` of standard-normal samples (unconstrained rationals; `normal(mu,
sigma)` returns `mu + sigma*z`).

Two source lines are not valid Python: line 270 is the bare text block
`**Analysis Methods:**` (the `st.markdown` opener before it is missing)
and line 383 duplicates the trailing arguments of a `fill_between` call
after its closing parenthesis.  In the embedding each renderer's output
record carries an `aborted` field holding the first malformed source
line reached in its body (`none` for the four well-formed bodies);
note that in real Python these lines make the whole module fail to
parse, so running app3.py raises SyntaxError before any rendering.
-/

/-- The six panel identifiers of the dashboard, in sidebar order
(src/app3.py lines 58-74). -/
inductive Panel where
  | temporal
  | multimodal
  | machineLearning
  | featureImportance
  | timeSeriesForecast
  | riskTrend
deriving DecidableEq, Repr

/-- The string identifier stored in `st.session_state.current_function`
for each panel (the literals assigned at src/app3.py lines 59-74). -/
def Panel.name : Panel → String
  | .temporal => "Temporal Analysis"
  | .multimodal => "Multimodal Analysis"
  | .machineLearning => "Machine Learning"
  | .featureImportance => "Feature Importance"
  | .timeSeriesForecast => "Time Series Forecast"
  | .riskTrend => "Risk Trend Analysis"

/-- The closed set of six panel identifiers, in sidebar order. -/
def panelNames : List String :=
  ["Temporal Analysis", "Multimodal Analysis", "Machine Learning",
   "Feature Importance", "Time Series Forecast", "Risk Trend Analysis"]

/-- Which sidebar buttons report a press on this rerun (the six
`st.sidebar.button` calls, src/app3.py lines 58-74).  Streamlit lets at
most one button return True per rerun, but the model allows any
combination; the handlers run in source order either way. -/
structure Buttons where
  temporal : Bool
  multimodal : Bool
  machineLearning : Bool
  featureImportance : Bool
  timeSeriesForecast : Bool
  riskTrend : Bool
deriving DecidableEq, Repr

/-- A rerun on which no button was pressed. -/
def noButtons : Buttons := ⟨false, false, false, false, false, false⟩

/-- The rerun on which exactly the given panel's sidebar button was
pressed. -/
def buttonFor : Panel → Buttons
  | .temporal => ⟨true, false, false, false, false, false⟩
  | .multimodal => ⟨false, true, false, false, false, false⟩
  | .machineLearning => ⟨false, false, true, false, false, false⟩
  | .featureImportance => ⟨false, false, false, true, false, false⟩
  | .timeSeriesForecast => ⟨false, false, false, false, true, false⟩
  | .riskTrend => ⟨false, false, false, false, false, true⟩

/-- The process state: `st.session_state.current_function` (absent key
modelled as `none`) together with every other piece of process state,
abstracted as a value `rest : Ω` that app3.py's handlers never touch. -/
structure SessionState (Ω : Type) where
  current_function : Option String
  rest : Ω
deriving DecidableEq, Repr

/-- Session start: the `current_function` key does not exist yet. -/
def initialState (Ω : Type) (r : Ω) : SessionState Ω := ⟨none, r⟩

/-- One button handler: `if st.sidebar.button(...):
st.session_state.current_function = v` (src/app3.py lines 58-74). -/
def setIf {Ω : Type} (pressed : Bool) (v : String) (s : SessionState Ω) :
    SessionState Ω :=
  if pressed then { s with current_function := some v } else s

/-- The six button handlers run in source order (src/app3.py lines
58-74); a later pressed handler overwrites an earlier one. -/
def processButtons {Ω : Type} (b : Buttons) (s : SessionState Ω) :
    SessionState Ω :=
  setIf b.riskTrend "Risk Trend Analysis"
    (setIf b.timeSeriesForecast "Time Series Forecast"
      (setIf b.featureImportance "Feature Importance"
        (setIf b.machineLearning "Machine Learning"
          (setIf b.multimodal "Multimodal Analysis"
            (setIf b.temporal "Temporal Analysis" s)))))

/-- Default initialization (src/app3.py lines 77-78): if
`current_function` is not in the session state, set it to
"Temporal Analysis". -/
def ensureDefault {Ω : Type} (s : SessionState Ω) : SessionState Ω :=
  if s.current_function = none then
    { s with current_function := some "Temporal Analysis" }
  else s

/-- The if/elif dispatch chain (src/app3.py lines 84-100): which single
renderer the current identifier selects; `none` when no arm matches. -/
def dispatch (name : String) : Option Panel :=
  if name = "Temporal Analysis" then some .temporal
  else if name = "Multimodal Analysis" then some .multimodal
  else if name = "Machine Learning" then some .machineLearning
  else if name = "Feature Importance" then some .featureImportance
  else if name = "Time Series Forecast" then some .timeSeriesForecast
  else if name = "Risk Trend Analysis" then some .riskTrend
  else none

/-- One full rerun of `main`: button handlers, then default
initialization, then dispatch.  Returns the session state after the
rerun and the single renderer that executes (if any). -/
def mainStep {Ω : Type} (b : Buttons) (s : SessionState Ω) :
    SessionState Ω × Option Panel :=
  let s1 := ensureDefault (processButtons b s)
  (s1, s1.current_function.bind dispatch)

/-- A whole session: a sequence of reruns, each with its button input,
threading the session state. -/
def runSession {Ω : Type} (bs : List Buttons) (s : SessionState Ω) :
    SessionState Ω :=
  bs.foldl (fun s b => (mainStep b s).1) s

/-- The selection operation of the spec: pressing the given panel's
sidebar button (its handler at src/app3.py lines 58-74). -/
def select {Ω : Type} (p : Panel) (s : SessionState Ω) : SessionState Ω :=
  processButtons (buttonFor p) s

/-- numpy's `uniform(low, high)`: `low + (high - low) * t` for a sample
`t` in [0,1). -/
def uniformDraw (low high t : ℚ) : ℚ := low + (high - low) * t

/-- numpy's `normal(mu, sigma)`: `mu + sigma * z` for a standard-normal
sample `z`. -/
def normalDraw (mu sigma z : ℚ) : ℚ := mu + sigma * z

/-- numpy's `linspace(lo, hi, n)`: n evenly spaced points from lo to hi
inclusive. -/
def linspace (lo hi : ℚ) (n : ℕ) : List ℚ :=
  (List.range n).map (fun i => lo + (hi - lo) * i / ((n : ℚ) - 1))

/-- A stream of uniform samples as numpy's unseeded generator produces
them: every sample lies in [0, 1). -/
def ValidStream (u : ℕ → ℚ) : Prop := ∀ i, 0 ≤ u i ∧ u i < 1

/-- Output of `show_temporal_analysis` (src/app3.py lines 123-151):
time axis `range(1, 13)`, the literal 12-point richness series, and
three hardcoded (label, value, delta) metrics.  No random draw occurs
in this renderer. -/
structure TemporalOut where
  time_points : List ℕ
  richness : List ℕ
  metrics : List (String × String × String)
deriving DecidableEq, Repr

/-- `show_temporal_analysis` (src/app3.py lines 123-151). -/
def show_temporal_analysis : TemporalOut :=
  { time_points := (List.range 12).map (· + 1)
  , richness := [50, 55, 52, 58, 60, 62, 65, 63, 68, 70, 72, 75]
  , metrics :=
      [("Average Richness", "62.5", "+12.5%"),
       ("Stability Index", "0.85", "+0.05"),
       ("Trend", "Increasing", "Positive")] }

/-- Output of `show_multimodal_analysis` (src/app3.py lines 153-196):
six feature labels and the 6x6 correlation matrix, drawn entrywise from
`uniform(-0.8, 0.8)` in row-major order and then `fill_diagonal(_, 1)`.
-/
structure MultimodalOut where
  features : List String
  corr_matrix : List (List ℚ)
deriving DecidableEq, Repr

/-- `show_multimodal_analysis` (src/app3.py lines 153-196).  Entry
(i, j) consumes sample `u (i*6 + j)` (numpy fills row-major); the
diagonal draws are made and then overwritten with 1 by
`np.fill_diagonal`. -/
def show_multimodal_analysis (u : ℕ → ℚ) : MultimodalOut :=
  { features := ["pH", "DO", "Temp", "OTU1", "OTU2", "OTU3"]
  , corr_matrix :=
      (List.range 6).map (fun i =>
        (List.range 6).map (fun j =>
          if i = j then 1 else uniformDraw (-0.8) 0.8 (u (i * 6 + j)))) }

/-- Output of `show_machine_learning` (src/app3.py lines 198-245): the
hardcoded four-model performance table (lines 224-230) and the
hardcoded 3x3 confusion matrix (line 236).  No random draw occurs in
this renderer. -/
structure MLOut where
  models : List String
  accuracy : List ℚ
  auc : List ℚ
  f1_score : List ℚ
  classes : List String
  cm : List (List ℕ)
deriving DecidableEq, Repr

/-- `show_machine_learning` (src/app3.py lines 198-245). -/
def show_machine_learning : MLOut :=
  { models := ["LR", "SVM Linear", "SVM RBF", "Random Forest"]
  , accuracy := [0.85, 0.88, 0.92, 0.94]
  , auc := [0.89, 0.91, 0.95, 0.96]
  , f1_score := [0.84, 0.87, 0.91, 0.93]
  , classes := ["Clean", "Light", "Heavy"]
  , cm := [[25, 2, 1], [1, 28, 3], [0, 1, 29]] }

/-- Output of `show_feature_importance` (src/app3.py lines 247-284):
ten feature labels and ten importance scores drawn from
`uniform(0.05, 0.2)`.  `aborted` records the first malformed source
line its body reaches: line 270 is the bare text `**Analysis
Methods:**` with no `st.markdown` opener, which is not a valid Python
statement. -/
structure FeatureImportanceOut where
  features : List String
  importance : List ℚ
  aborted : Option ℕ
deriving DecidableEq, Repr

/-- `show_feature_importance` (src/app3.py lines 247-284); score i
consumes sample `u i`. -/
def show_feature_importance (u : ℕ → ℚ) : FeatureImportanceOut :=
  { features := (List.range 10).map (fun i => "OTU_" ++ toString (i + 1))
  , importance := (List.range 10).map (fun i => uniformDraw 0.05 0.2 (u i))
  , aborted := some 270 }

/-- Output of `show_time_series_forecast` (src/app3.py lines 286-339):
12 month labels, `history_values = normal(0.3, 0.05, 12) +
linspace(0, 0.1, 12)`, 6 future month labels, `forecast_values =
normal(0.4, 0.03, 6)`, the 0.35 risk-threshold line, and two hardcoded
metrics. -/
structure ForecastOut where
  months : List String
  history_values : List ℚ
  future_months : List String
  forecast_values : List ℚ
  threshold : ℚ
  metrics : List (String × String × String)
deriving DecidableEq, Repr

/-- `show_time_series_forecast` (src/app3.py lines 286-339); the 12
history draws consume `z 0 .. z 11`, the 6 forecast draws
`z 12 .. z 17`. -/
def show_time_series_forecast (z : ℕ → ℚ) : ForecastOut :=
  { months := ["Jan", "Feb", "Mar", "Apr", "May", "Jun",
               "Jul", "Aug", "Sep", "Oct", "Nov", "Dec"]
  , history_values :=
      List.zipWith (· + ·)
        ((List.range 12).map (fun i => normalDraw 0.3 0.05 (z i)))
        (linspace 0 0.1 12)
  , future_months := ["Jan", "Feb", "Mar", "Apr", "May", "Jun"]
  , forecast_values :=
      (List.range 6).map (fun i => normalDraw 0.4 0.03 (z (12 + i)))
  , threshold := 0.35
  , metrics :=
      [("Prediction Accuracy", "89.2%", "+2.1%"),
       ("Early Warning", "15 days", "+3 days")] }

/-- Output of `show_risk_trend_analysis` (src/app3.py lines 341-397):
six hardcoded metrics, the three risk-level counts (lines 364-365), and
the six-point monthly risk-score series (lines 378-379) with its 0.3
threshold.  `aborted` records the first malformed source line its body
reaches: line 383 repeats the trailing arguments of the `fill_between`
call after its closing parenthesis, which is not valid Python.  No
random draw occurs in this renderer. -/
structure RiskTrendOut where
  metrics : List (String × String × String)
  risk_levels : List String
  risk_counts : List ℕ
  months : List String
  risk_scores : List ℚ
  threshold : ℚ
  aborted : Option ℕ
deriving DecidableEq, Repr

/-- `show_risk_trend_analysis` (src/app3.py lines 341-397). -/
def show_risk_trend_analysis : RiskTrendOut :=
  { metrics :=
      [("Current Risk Level", "Medium", "Stable"),
       ("Risk Trend", "Increasing", "+0.05"),
       ("Warning Days", "12 days", "+2 days"),
       ("Confidence", "92%", "+3%"),
       ("Key Indicator", "OTU_157", "High Risk"),
       ("Impact Level", "High", "↑")]
  , risk_levels := ["Low", "Medium", "High"]
  , risk_counts := [25, 15, 8]
  , months := ["Jan", "Feb", "Mar", "Apr", "May", "Jun"]
  , risk_scores := [0.2, 0.25, 0.3, 0.35, 0.4, 0.45]
  , threshold := 0.3
  , aborted := some 383 }

/-- The output emitted by one render, tagged by the renderer that
produced it. -/
inductive PanelOut where
  | temporal (o : TemporalOut)
  | multimodal (o : MultimodalOut)
  | machineLearning (o : MLOut)
  | featureImportance (o : FeatureImportanceOut)
  | forecast (o : ForecastOut)
  | riskTrend (o : RiskTrendOut)
deriving DecidableEq, Repr

/-- Which renderer a piece of output came from. -/
def PanelOut.producedBy : PanelOut → Panel
  | .temporal _ => .temporal
  | .multimodal _ => .multimodal
  | .machineLearning _ => .machineLearning
  | .featureImportance _ => .featureImportance
  | .forecast _ => .timeSeriesForecast
  | .riskTrend _ => .riskTrend

/-- Invoke the renderer for a panel, with the uniform sample stream `u`
and the standard-normal sample stream `z` this render consumes. -/
def render (p : Panel) (u z : ℕ → ℚ) : PanelOut :=
  match p with
  | .temporal => .temporal show_temporal_analysis
  | .multimodal => .multimodal (show_multimodal_analysis u)
  | .machineLearning => .machineLearning show_machine_learning
  | .featureImportance => .featureImportance (show_feature_importance u)
  | .timeSeriesForecast => .forecast (show_time_series_forecast z)
  | .riskTrend => .riskTrend show_risk_trend_analysis

/-- Entry (i, j) of a matrix stored as a list of rows. -/
def matEntry (m : List (List ℚ)) (i j : ℕ) : ℚ := ((m.getD i []).getD j 0)

/-- The constant sample stream 0 (every uniform draw at the bottom of
its range). -/
def streamLo : ℕ → ℚ := fun _ => 0

/-- The constant sample stream 1/2 (every uniform draw at the middle of
its range). -/
def streamMid : ℕ → ℚ := fun _ => 1 / 2

theorem setIf_cf {Ω : Type} (c : Bool) (v : String) (s : SessionState Ω) :
    (setIf c v s).current_function =
      if c then some v else s.current_function := by
  cases c <;> simp [setIf]

theorem setIf_rest {Ω : Type} (c : Bool) (v : String) (s : SessionState Ω) :
    (setIf c v s).rest = s.rest := by
  cases c <;> simp [setIf]

theorem processButtons_cf {Ω : Type} (b : Buttons) (s : SessionState Ω) :
    (processButtons b s).current_function = s.current_function ∨
      ∃ v ∈ panelNames, (processButtons b s).current_function = some v := by
  simp only [processButtons, setIf_cf]
  split_ifs <;> simp [panelNames]

theorem ensureDefault_cf {Ω : Type} (s : SessionState Ω) :
    (ensureDefault s).current_function =
      if s.current_function = none then some "Temporal Analysis"
      else s.current_function := by
  unfold ensureDefault
  split_ifs with h <;> simp [h]

/-- A session state whose active panel is one of the six identifiers. -/
def GoodState {Ω : Type} (s : SessionState Ω) : Prop :=
  ∃ v ∈ panelNames, s.current_function = some v

theorem mainStep_good {Ω : Type} (b : Buttons) (s : SessionState Ω)
    (h : s.current_function = none ∨ GoodState s) :
    GoodState (mainStep b s).1 := by
  have hcf := processButtons_cf b s
  have hd := ensureDefault_cf (processButtons b s)
  simp only [mainStep]
  rcases hcf with hcf | ⟨v, hv, hcf⟩
  · rcases h with h | ⟨v, hv, h⟩
    · refine ⟨"Temporal Analysis", by simp [panelNames], ?_⟩
      rw [hd, hcf, h]
      simp
    · refine ⟨v, hv, ?_⟩
      rw [hd, hcf, h]
      simp
  · refine ⟨v, hv, ?_⟩
    rw [hd, hcf]
    simp

theorem runSession_good {Ω : Type} (bs : List Buttons) (s : SessionState Ω)
    (h : GoodState s) : GoodState (runSession bs s) := by
  induction bs generalizing s with
  | nil => exact h
  | cons b bs ih =>
      simp only [runSession, List.foldl_cons] at ih ⊢
      exact ih _ (mainStep_good b s (Or.inr h))

theorem uniformDraw_mem (low high t : ℚ) (hlh : low < high) (h0 : 0 ≤ t)
    (h1 : t < 1) :
    low ≤ uniformDraw low high t ∧ uniformDraw low high t < high := by
  unfold uniformDraw
  constructor
  · nlinarith
  · nlinarith

theorem validStream_streamLo : ValidStream streamLo := by
  intro i
  constructor <;> norm_num [streamLo]

theorem validStream_streamMid : ValidStream streamMid := by
  intro i
  constructor <;> norm_num [streamMid]

/-- C1: when one of the six panel identifiers is the current ViewState
value, the rerun's dispatch selects exactly the matching panel renderer
(the if/elif chain yields that single panel and no other), and the
output that renderer produces is tagged as coming from that panel
alone. -/
theorem C1_dispatch_exactly_matching (Ω : Type) (r : Ω) (p : Panel)
    (u z : ℕ → ℚ) :
    (mainStep noButtons ⟨some p.name, r⟩).2 = some p ∧
    dispatch p.name = some p ∧
    (render p u z).producedBy = p := by
  cases p <;> exact ⟨rfl, rfl, rfl⟩

/-- C4: before any selection action has occurred (no button pressed,
`current_function` key absent), the rerun sets the active panel to
"Temporal Analysis" — the first entry of the panel list — and
dispatches to the Temporal Analysis renderer. -/
theorem C4_default_is_temporal (Ω : Type) (r : Ω) :
    panelNames.head? = some "Temporal Analysis" ∧
    ((mainStep noButtons (initialState Ω r)).1).current_function =
      some "Temporal Analysis" ∧
    (mainStep noButtons (initialState Ω r)).2 = some Panel.temporal :=
  ⟨rfl, rfl, rfl⟩

/-- C5: after the first rerun of a session (and any further sequence of
reruns with arbitrary button presses), the ViewState is `some v` for a
`v` in the closed six-element panel list — never `none`, never outside
the set. -/
theorem C5_view_state_invariant (Ω : Type) (r : Ω) (b : Buttons)
    (bs : List Buttons) :
    ∃ v ∈ panelNames,
      (runSession (b :: bs) (initialState Ω r)).current_function = some v := by
  have h1 : GoodState (mainStep b (initialState Ω r)).1 :=
    mainStep_good b _ (Or.inl rfl)
  have h2 := runSession_good bs _ h1
  simpa [runSession, List.foldl_cons, GoodState] using h2

/-- C6: the generated series have their documented fixed shapes: the
temporal richness series has 12 points, the forecast history 12 points
and the forecast 6 points, the correlation matrix is 6x6 with every
diagonal entry 1, and the risk-trend monthly series has 6 points — for
every random stream. -/
theorem C6_series_shapes (u z : ℕ → ℚ) :
    show_temporal_analysis.richness.length = 12 ∧
    show_temporal_analysis.time_points.length = 12 ∧
    (show_time_series_forecast z).history_values.length = 12 ∧
    (show_time_series_forecast z).forecast_values.length = 6 ∧
    (show_multimodal_analysis u).corr_matrix.length = 6 ∧
    (show_multimodal_analysis u).corr_matrix.map List.length =
      [6, 6, 6, 6, 6, 6] ∧
    (∀ i : Fin 6,
      matEntry (show_multimodal_analysis u).corr_matrix i i = 1) ∧
    show_risk_trend_analysis.risk_scores.length = 6 := by
  refine ⟨rfl, rfl, rfl, rfl, rfl, rfl, ?_, rfl⟩
  intro i
  fin_cases i <;> rfl

/-- C7: the select operation (pressing the panel's sidebar button)
overwrites `current_function` with that panel's identifier and leaves
every other piece of process state unchanged. -/
theorem C7_select_overwrites_frames_rest (Ω : Type) (s : SessionState Ω)
    (p : Panel) :
    (select p s).current_function = some p.name ∧
    (select p s).rest = s.rest := by
  cases p <;> exact ⟨rfl, rfl⟩

/-- C9: a button press on the very first rerun (before any ViewState
exists) wins over the default: the handlers run before the
default-initialization check, so the active panel becomes the selected
identifier and its renderer is dispatched, not Temporal Analysis. -/
theorem C9_first_press_overrides_default (Ω : Type) (r : Ω) (p : Panel) :
    ((mainStep (buttonFor p) (initialState Ω r)).1).current_function =
      some p.name ∧
    (mainStep (buttonFor p) (initialState Ω r)).2 = some p := by
  cases p <;> exact ⟨rfl, rfl⟩

/-- C2 counterexample: the 12-point richness series is a hardcoded
literal (src/app3.py line 140), not a random draw — two renders of the
Temporal Analysis panel whose random streams disagree produce identical
output, and every pair of renders of that panel is equal, so no pair of
renders makes the richness series differ. -/
theorem C2_counterexample :
    show_temporal_analysis.richness =
      [50, 55, 52, 58, 60, 62, 65, 63, 68, 70, 72, 75] ∧
    render Panel.temporal streamLo streamLo =
      render Panel.temporal streamMid streamMid ∧
    streamLo 0 ≠ streamMid 0 ∧
    (∀ u1 z1 u2 z2 : ℕ → ℚ,
      render Panel.temporal u1 z1 = render Panel.temporal u2 z2) := by
  refine ⟨rfl, rfl, by norm_num [streamLo, streamMid], fun _ _ _ _ => rfl⟩

theorem lists_ne_of_getD (l1 l2 : List ℚ) (i : ℕ)
    (h : l1.getD i 0 ≠ l2.getD i 0) : l1 ≠ l2 :=
  fun he => h (by rw [he])

theorem mats_ne_of_entry (m1 m2 : List (List ℚ)) (i j : ℕ)
    (h : matEntry m1 i j ≠ matEntry m2 i j) : m1 ≠ m2 :=
  fun he => h (by rw [he])

/-- C2 amended: the correlation matrix, the importance vector and the
forecast series are regenerated from unseeded draws on every render and
differ between renders with different draws, but the 12-point richness
series is a fixed literal, identical on every render. -/
theorem C2_random_series_vary :
    ValidStream streamLo ∧ ValidStream streamMid ∧
    (show_multimodal_analysis streamLo).corr_matrix ≠
      (show_multimodal_analysis streamMid).corr_matrix ∧
    (show_feature_importance streamLo).importance ≠
      (show_feature_importance streamMid).importance ∧
    (show_time_series_forecast streamLo).history_values ≠
      (show_time_series_forecast streamMid).history_values ∧
    (show_time_series_forecast streamLo).forecast_values ≠
      (show_time_series_forecast streamMid).forecast_values ∧
    show_temporal_analysis.richness =
      [50, 55, 52, 58, 60, 62, 65, 63, 68, 70, 72, 75] := by
  refine ⟨validStream_streamLo, validStream_streamMid, ?_, ?_, ?_, ?_, rfl⟩
  · apply mats_ne_of_entry _ _ 0 1
    have e1 : matEntry (show_multimodal_analysis streamLo).corr_matrix 0 1
        = uniformDraw (-0.8) 0.8 (streamLo 1) := rfl
    have e2 : matEntry (show_multimodal_analysis streamMid).corr_matrix 0 1
        = uniformDraw (-0.8) 0.8 (streamMid 1) := rfl
    rw [e1, e2]
    norm_num [uniformDraw, streamLo, streamMid]
  · apply lists_ne_of_getD _ _ 0
    have e1 : (show_feature_importance streamLo).importance.getD 0 0
        = uniformDraw 0.05 0.2 (streamLo 0) := rfl
    have e2 : (show_feature_importance streamMid).importance.getD 0 0
        = uniformDraw 0.05 0.2 (streamMid 0) := rfl
    rw [e1, e2]
    norm_num [uniformDraw, streamLo, streamMid]
  · apply lists_ne_of_getD _ _ 0
    have e1 : (show_time_series_forecast streamLo).history_values.getD 0 0
        = normalDraw 0.3 0.05 (streamLo 0) + (linspace 0 0.1 12).getD 0 0 :=
      rfl
    have e2 : (show_time_series_forecast streamMid).history_values.getD 0 0
        = normalDraw 0.3 0.05 (streamMid 0) + (linspace 0 0.1 12).getD 0 0 :=
      rfl
    rw [e1, e2]
    intro h
    have h2 := add_right_cancel h
    norm_num [normalDraw, streamLo, streamMid] at h2
  · apply lists_ne_of_getD _ _ 0
    have e1 : (show_time_series_forecast streamLo).forecast_values.getD 0 0
        = normalDraw 0.4 0.03 (streamLo 12) := rfl
    have e2 : (show_time_series_forecast streamMid).forecast_values.getD 0 0
        = normalDraw 0.4 0.03 (streamMid 12) := rfl
    rw [e1, e2]
    norm_num [normalDraw, streamLo, streamMid]

/-- C3: the claim says every renderer completes without error, but the
bodies of `show_feature_importance` and `show_risk_trend_analysis`
contain statements that are not valid Python (src/app3.py lines 270 and
383), so importing app3.py raises SyntaxError and neither renderer (nor
any other) can complete; the embedding records the malformed line each
body reaches. -/
theorem C3_malformed_renderer_bodies (u : ℕ → ℚ) :
    (show_feature_importance u).aborted = some 270 ∧
    show_risk_trend_analysis.aborted = some 383 :=
  ⟨rfl, rfl⟩

/-- C8: the hardcoded tables — the four-model performance table, the
3x3 confusion matrix and the three risk-level counts — are literal
constants: any two renders of the containing renderers, whatever their
random streams, produce equal values for them. -/
theorem C8_hardcoded_tables_stable (u1 z1 u2 z2 : ℕ → ℚ) :
    render Panel.machineLearning u1 z1 =
      render Panel.machineLearning u2 z2 ∧
    render Panel.riskTrend u1 z1 = render Panel.riskTrend u2 z2 ∧
    show_machine_learning.models =
      ["LR", "SVM Linear", "SVM RBF", "Random Forest"] ∧
    show_machine_learning.accuracy = [0.85, 0.88, 0.92, 0.94] ∧
    show_machine_learning.auc = [0.89, 0.91, 0.95, 0.96] ∧
    show_machine_learning.f1_score = [0.84, 0.87, 0.91, 0.93] ∧
    show_machine_learning.cm = [[25, 2, 1], [1, 28, 3], [0, 1, 29]] ∧
    show_risk_trend_analysis.risk_counts = [25, 15, 8] :=
  ⟨rfl, rfl, rfl, rfl, rfl, rfl, rfl, rfl⟩

/-- C10: for every valid random stream, each of the ten importance
scores lies in [0.05, 0.2), and every off-diagonal entry of the 6x6
correlation matrix lies in [-0.8, 0.8). -/
theorem C10_random_ranges (u : ℕ → ℚ) (hu : ValidStream u) :
    (∀ x ∈ (show_feature_importance u).importance,
      0.05 ≤ x ∧ x < 0.2) ∧
    (∀ i j : Fin 6, i ≠ j →
      -0.8 ≤ matEntry (show_multimodal_analysis u).corr_matrix i j ∧
      matEntry (show_multimodal_analysis u).corr_matrix i j < 0.8) := by
  constructor
  · intro x hx
    simp only [show_feature_importance, List.mem_map, List.mem_range] at hx
    obtain ⟨i, hi, rfl⟩ := hx
    exact uniformDraw_mem 0.05 0.2 (u i) (by norm_num) (hu i).1 (hu i).2
  · intro i j hij
    fin_cases i <;> fin_cases j <;>
      first
        | exact absurd rfl hij
        | exact uniformDraw_mem (-0.8) 0.8 (u _) (by norm_num)
            (hu _).1 (hu _).2

theorem C10_random_ranges_witness :
    ValidStream streamLo ∧
    ((∀ x ∈ (show_feature_importance streamLo).importance,
        0.05 ≤ x ∧ x < 0.2) ∧
      (∀ i j : Fin 6, i ≠ j →
        -0.8 ≤ matEntry (show_multimodal_analysis streamLo).corr_matrix i j ∧
        matEntry (show_multimodal_analysis streamLo).corr_matrix i j < 0.8)) :=
  ⟨validStream_streamLo, C10_random_ranges streamLo validStream_streamLo⟩
